import Mathlib

/-!
Verification development for the bankroll & staking engine of the
NBA_Underdog_Bettor repository.

The Python sources are shallowly embedded over exact rationals:

* `src/src/utils/kelly.py` — odds conversion, Kelly criterion, bet sizing
  (`implied_probability`, `decimal_odds_from_american`, `calculate_kelly`,
  `estimate_win_probability`, `calculate_bet_sizing`).
* `src/src/bankroll/manager.py` — performance metrics, confidence
  calibration, risk classification and dynamic Kelly adjustment
  (`get_performance_metrics`, `get_confidence_calibration`,
  `get_risk_assessment`, `calculate_dynamic_kelly`).

Python floats are modelled as `ℚ` (exact field arithmetic), Python ints as
`ℤ`/`ℕ`, and fallible code (a possible `ZeroDivisionError`) as `Option`.
The database-backed methods of `BankrollManager` are embedded as pure
functions of the list of settled-bet rows, already sorted newest-first by
game date (the sort the Python performs before the computations modelled
here), together with the initial bankroll.
-/

namespace NBAUnderdog

/-- Confidence tiers from `src/src/models/schemas.py` (`Confidence`). -/
inductive Confidence where
  | HIGH
  | MEDIUM
  | LOW
deriving DecidableEq

/-- Result of a settled bet as stored in the results table
(`result` column: WIN / LOSS / PUSH). -/
inductive BetResult where
  | WIN
  | LOSS
  | PUSH
deriving DecidableEq

/-- Risk levels from `src/src/bankroll/manager.py` (`RiskLevel`). -/
inductive RiskLevel where
  | CRISIS
  | CAUTIOUS
  | NORMAL
  | AGGRESSIVE
deriving DecidableEq

/-- Edge adjustment per confidence tier (`CONFIDENCE_EDGE` in
`src/src/utils/kelly.py`). -/
def CONFIDENCE_EDGE : Confidence → ℚ
  | Confidence.HIGH => 8 / 100
  | Confidence.MEDIUM => 4 / 100
  | Confidence.LOW => 0

/-- Embedding of `implied_probability` (`src/src/utils/kelly.py`).
Positive odds take the underdog branch `100 / (o + 100)`; all other
values (including 0) take the favorite branch `abs(o) / (abs(o) + 100)`.
The function is total in the source: no branch can divide by zero. -/
def implied_probability (american_odds : ℤ) : ℚ :=
  if 0 < american_odds then
    100 / ((american_odds : ℚ) + 100)
  else
    (american_odds.natAbs : ℚ) / ((american_odds.natAbs : ℚ) + 100)

/-- Embedding of `decimal_odds_from_american` (`src/src/utils/kelly.py`).
For non-positive odds the source computes `100 / abs(o) + 1`, which raises
an unhandled `ZeroDivisionError` when `o = 0`; that failure is modelled as
`none`. -/
def decimal_odds_from_american (american_odds : ℤ) : Option ℚ :=
  if 0 < american_odds then
    some ((american_odds : ℚ) / 100 + 1)
  else if american_odds.natAbs = 0 then
    none
  else
    some (100 / (american_odds.natAbs : ℚ) + 1)

/-- Embedding of `calculate_kelly` (`src/src/utils/kelly.py`):
`f* = (b p - q) / b` with `b = decimal odds - 1`.  The division by `b`
would raise `ZeroDivisionError` were `b = 0`, hence the guard. -/
def calculate_kelly (american_odds : ℤ) (win_probability : ℚ) : Option ℚ :=
  (decimal_odds_from_american american_odds).bind fun decimal =>
    let b := decimal - 1
    if b = 0 then none
    else
      let p := win_probability
      let q := 1 - p
      some ((b * p - q) / b)

/-- Embedding of `estimate_win_probability` (`src/src/utils/kelly.py`):
implied probability plus the tier edge, capped at 0.95. -/
def estimate_win_probability (american_odds : ℤ) (confidence : Confidence) : ℚ :=
  let implied_prob := implied_probability american_odds
  let edge := CONFIDENCE_EDGE confidence
  min (implied_prob + edge) (95 / 100)

/-- Model of the Python builtin `round(q, n)` on exact rationals:
round to `n` decimal digits, ties to even. -/
def roundHalfEven (q : ℚ) : ℤ :=
  let f := ⌊q⌋
  let r := q - (f : ℚ)
  if r < 1 / 2 then f
  else if 1 / 2 < r then f + 1
  else if f % 2 = 0 then f else f + 1

/-- Rounding to `n` decimal places, as `round(q, n)` in Python. -/
def py_round (q : ℚ) (n : ℕ) : ℚ :=
  ((roundHalfEven (q * 10 ^ n) : ℤ) : ℚ) / 10 ^ n

/-- Output record of `calculate_bet_sizing` (the dictionary it returns,
with the same rounding as the source). -/
structure StakingRecommendation where
  implied_prob : ℚ
  estimated_prob : ℚ
  full_kelly_pct : ℚ
  adjusted_kelly_pct : ℚ
  final_bet_pct : ℚ
  bet_amount : ℚ
  expected_value : ℚ
  should_bet : Bool
deriving DecidableEq

/-- The cap/decision block of `calculate_bet_sizing`
(`src/src/utils/kelly.py`, the `if adjusted_kelly <= 0 / elif / else`
chain): returns the unrounded final bet fraction together with
`should_bet`. -/
def bet_caps (adjusted_kelly min_bet_pct max_bet_pct : ℚ) : ℚ × Bool :=
  if adjusted_kelly ≤ 0 then (0, false)
  else if adjusted_kelly < min_bet_pct then (0, false)
  else (min adjusted_kelly max_bet_pct, true)

/-- Embedding of `calculate_bet_sizing` (`src/src/utils/kelly.py`).
`none` models the `ZeroDivisionError` escaping when `american_odds = 0`. -/
def calculate_bet_sizing (american_odds : ℤ) (confidence : Confidence)
    (bankroll : ℚ) (kelly_fraction max_bet_pct min_bet_pct : ℚ) :
    Option StakingRecommendation :=
  let implied_prob := implied_probability american_odds
  let estimated_prob := estimate_win_probability american_odds confidence
  match calculate_kelly american_odds estimated_prob,
      decimal_odds_from_american american_odds with
  | some full_kelly, some decimal =>
      let adjusted_kelly := full_kelly * kelly_fraction
      let caps := bet_caps adjusted_kelly min_bet_pct max_bet_pct
      let bet_amount := py_round (bankroll * caps.1) 2
      let potential_win := bet_amount * (decimal - 1)
      let ev := estimated_prob * potential_win - (1 - estimated_prob) * bet_amount
      some {
        implied_prob := py_round implied_prob 4
        estimated_prob := py_round estimated_prob 4
        full_kelly_pct := py_round (full_kelly * 100) 2
        adjusted_kelly_pct := py_round (adjusted_kelly * 100) 2
        final_bet_pct := py_round (caps.1 * 100) 2
        bet_amount := bet_amount
        expected_value := py_round ev 2
        should_bet := caps.2 }
  | _, _ => none

/-- One settled-bet row of the results table, as consumed by
`BankrollManager` (`src/src/bankroll/manager.py`): confidence tier,
result, amount wagered and realized profit/loss.  Rows are handled
already sorted newest-first by `game_date`. -/
structure SettledBet where
  confidence : Confidence
  result : BetResult
  bet_amount : ℚ
  profit_loss : ℚ
deriving DecidableEq

/-- The fields of `PerformanceMetrics` (`src/src/bankroll/manager.py`)
that the bankroll computations below populate and consume.  Defaults
match the dataclass defaults. -/
structure PerformanceMetrics where
  win_rate_l10 : ℚ := 0
  win_rate_all : ℚ := 0
  current_streak : ℤ := 0
  total_wagered : ℚ := 0
  total_pl : ℚ := 0
  peak_bankroll : ℚ := 0
  current_bankroll : ℚ := 0
  drawdown_pct : ℚ := 0
  total_picks : ℕ := 0
  wins : ℕ := 0
  losses : ℕ := 0
deriving DecidableEq

/-- The fields of `CalibrationMetrics` (`src/src/bankroll/manager.py`),
with the dataclass defaults: expected win rates HIGH 0.70, MEDIUM 0.55,
LOW 0.35, neutral calibration ratios 1.0. -/
structure CalibrationMetrics where
  expected_high : ℚ := 7 / 10
  expected_medium : ℚ := 11 / 20
  expected_low : ℚ := 7 / 20
  actual_high : ℚ := 0
  actual_medium : ℚ := 0
  actual_low : ℚ := 0
  count_high : ℕ := 0
  count_medium : ℕ := 0
  count_low : ℕ := 0
  calibration_high : ℚ := 1
  calibration_medium : ℚ := 1
  calibration_low : ℚ := 1
  overall_calibration : ℚ := 1
deriving DecidableEq

/-- The streak loop of `get_performance_metrics`: walking from the most
recent bet, count consecutive bets whose result equals the most recent
result, provided that result is WIN or LOSS; any other row (a different
result, or a PUSH anywhere — including first) stops the count. -/
def streak_count (first_result : BetResult) : List SettledBet → ℕ
  | [] => 0
  | b :: rest =>
    if b.result == first_result &&
        (first_result == BetResult.WIN || first_result == BetResult.LOSS) then
      streak_count first_result rest + 1
    else 0

/-- One step of the peak-bankroll loop of `get_performance_metrics`:
`running_total += profit_loss; peak = max(peak, running_total)`. -/
def walk_step (rp : ℚ × ℚ) (b : SettledBet) : ℚ × ℚ :=
  (rp.1 + b.profit_loss, max rp.2 (rp.1 + b.profit_loss))

/-- Embedding of `BankrollManager.get_performance_metrics`
(`src/src/bankroll/manager.py`) restricted to the fields the claims
touch.  The input list is the query result already sorted newest-first
by game date; the peak-bankroll walk runs over its reverse (oldest
first), starting from and including the initial bankroll. -/
def get_performance_metrics (sorted_results : List SettledBet)
    (initial_bankroll : ℚ) : PerformanceMetrics :=
  match sorted_results with
  | [] => { current_bankroll := initial_bankroll, peak_bankroll := initial_bankroll }
  | first :: _ =>
    let results := sorted_results
    let total_picks := results.length
    let wins := (results.filter (fun r => r.result == BetResult.WIN)).length
    let losses := (results.filter (fun r => r.result == BetResult.LOSS)).length
    let total_wagered := (results.map (fun r => r.bet_amount)).sum
    let total_pl := (results.map (fun r => r.profit_loss)).sum
    let win_rate_all := (wins : ℚ) / total_picks
    let last10 := results.take 10
    let win_rate_l10 :=
      if last10.length ≠ 0 then
        ((last10.filter (fun r => r.result == BetResult.WIN)).length : ℚ) / last10.length
      else 0
    let streak := streak_count first.result results
    let current_streak : ℤ :=
      if first.result == BetResult.WIN then (streak : ℤ) else -(streak : ℤ)
    let current_bankroll := initial_bankroll + total_pl
    let peak_bankroll :=
      (results.reverse.foldl walk_step (initial_bankroll, initial_bankroll)).2
    let drawdown_pct :=
      if 0 < peak_bankroll then (peak_bankroll - current_bankroll) / peak_bankroll else 0
    { win_rate_l10 := win_rate_l10
      win_rate_all := win_rate_all
      current_streak := current_streak
      total_wagered := total_wagered
      total_pl := total_pl
      peak_bankroll := peak_bankroll
      current_bankroll := current_bankroll
      drawdown_pct := drawdown_pct
      total_picks := total_picks
      wins := wins
      losses := losses }

/-- Per-tier grouping of `get_confidence_calibration`: number of picks
with the given confidence, and how many of them WON. -/
def tier_stats (results : List SettledBet) (conf : Confidence) : ℕ × ℕ :=
  let picks := results.filter (fun r => r.confidence == conf)
  (picks.length, (picks.filter (fun r => r.result == BetResult.WIN)).length)

/-- Embedding of `BankrollManager.get_confidence_calibration`
(`src/src/bankroll/manager.py`).  Per tier: with at least 5 samples the
calibration ratio is `min(actual / expected, 1.5)`; otherwise it stays
at the neutral default 1.0.  The overall calibration is the
sample-weighted average of the HIGH and MEDIUM ratios (LOW excluded),
defaulting to 1.0 on an empty HIGH+MEDIUM sample. -/
def get_confidence_calibration (results : List SettledBet) : CalibrationMetrics :=
  if results.isEmpty then {}
  else
    let nh := (tier_stats results Confidence.HIGH).1
    let wh := (tier_stats results Confidence.HIGH).2
    let nm := (tier_stats results Confidence.MEDIUM).1
    let wm := (tier_stats results Confidence.MEDIUM).2
    let nl := (tier_stats results Confidence.LOW).1
    let wl := (tier_stats results Confidence.LOW).2
    let calibration_high :=
      if 5 ≤ nh then min (((wh : ℚ) / nh) / (7 / 10)) (3 / 2) else 1
    let calibration_medium :=
      if 5 ≤ nm then min (((wm : ℚ) / nm) / (11 / 20)) (3 / 2) else 1
    let calibration_low :=
      if 5 ≤ nl then min (((wl : ℚ) / nl) / (7 / 20)) (3 / 2) else 1
    { count_high := nh
      count_medium := nm
      count_low := nl
      actual_high := if nh = 0 then 0 else (wh : ℚ) / nh
      actual_medium := if nm = 0 then 0 else (wm : ℚ) / nm
      actual_low := if nl = 0 then 0 else (wl : ℚ) / nl
      calibration_high := calibration_high
      calibration_medium := calibration_medium
      calibration_low := calibration_low
      overall_calibration :=
        if 0 < nh + nm then
          (calibration_high * nh + calibration_medium * nm) / ((nh : ℚ) + nm)
        else 1 }

/-- `BankrollManager.STREAK_LOSS_THRESHOLD`. -/
def STREAK_LOSS_THRESHOLD : ℤ := 3

/-- `BankrollManager.STREAK_WIN_THRESHOLD`. -/
def STREAK_WIN_THRESHOLD : ℤ := 5

/-- `BankrollManager.DRAWDOWN_CAUTION`. -/
def DRAWDOWN_CAUTION : ℚ := 1 / 10

/-- `BankrollManager.DRAWDOWN_CRISIS`. -/
def DRAWDOWN_CRISIS : ℚ := 1 / 5

/-- `BankrollManager.RISK_MULTIPLIERS`. -/
def RISK_MULTIPLIERS : RiskLevel → ℚ
  | RiskLevel.CRISIS => 1 / 4
  | RiskLevel.CAUTIOUS => 1 / 2
  | RiskLevel.NORMAL => 1
  | RiskLevel.AGGRESSIVE => 11 / 10

/-- Embedding of `BankrollManager.get_risk_assessment`
(`src/src/bankroll/manager.py`).  The source fetches the calibration it
consults in the AGGRESSIVE branch from the same results store that all
metrics derive from; here it is passed explicitly. -/
def get_risk_assessment (metrics : PerformanceMetrics)
    (calibration : CalibrationMetrics) : RiskLevel :=
  if DRAWDOWN_CRISIS ≤ metrics.drawdown_pct then RiskLevel.CRISIS
  else if DRAWDOWN_CAUTION ≤ metrics.drawdown_pct then RiskLevel.CAUTIOUS
  else if metrics.current_streak ≤ -STREAK_LOSS_THRESHOLD then RiskLevel.CAUTIOUS
  else if STREAK_WIN_THRESHOLD ≤ metrics.current_streak ∧
      9 / 10 ≤ calibration.overall_calibration ∧
      3 / 5 ≤ metrics.win_rate_l10 then RiskLevel.AGGRESSIVE
  else RiskLevel.NORMAL

/-- Embedding of `BankrollManager.calculate_dynamic_kelly`
(`src/src/bankroll/manager.py`): base Kelly fraction times the risk
multiplier, times the overall calibration when it is below 0.8 with at
least 10 HIGH+MEDIUM samples, then clamped as
`max(0.05, min(adjusted, base * 1.25))`. -/
def calculate_dynamic_kelly (base_kelly : ℚ) (metrics : PerformanceMetrics)
    (calibration : CalibrationMetrics) : ℚ :=
  let risk_level := get_risk_assessment metrics calibration
  let adjusted_kelly := base_kelly * RISK_MULTIPLIERS risk_level
  let adjusted_kelly :=
    if calibration.overall_calibration < 4 / 5 ∧
        10 ≤ calibration.count_high + calibration.count_medium then
      adjusted_kelly * calibration.overall_calibration
    else adjusted_kelly
  let min_kelly : ℚ := 1 / 20
  let max_kelly := base_kelly * (5 / 4)
  max min_kelly (min adjusted_kelly max_kelly)

/-- The pre-clamp product of `calculate_dynamic_kelly`: base fraction
times risk multiplier, times the conditional calibration penalty. -/
def dyn_kelly_product (base_kelly : ℚ) (metrics : PerformanceMetrics)
    (calibration : CalibrationMetrics) : ℚ :=
  let adjusted_kelly :=
    base_kelly * RISK_MULTIPLIERS (get_risk_assessment metrics calibration)
  if calibration.overall_calibration < 4 / 5 ∧
      10 ≤ calibration.count_high + calibration.count_medium then
    adjusted_kelly * calibration.overall_calibration
  else adjusted_kelly

/-- Single settled HIGH-tier winning bet: the cold-start calibration
example of the specification (1 win out of 1 HIGH pick). -/
def c4_example_bets : List SettledBet :=
  [{ confidence := Confidence.HIGH, result := BetResult.WIN,
     bet_amount := 10, profit_loss := 10 }]

/-- Settled bets realizing the profit/loss walk `[+100, −50, +20, −80]`
(chronological), stored newest-first as the embedding expects. -/
def c5_example_bets : List SettledBet :=
  [{ confidence := Confidence.HIGH, result := BetResult.LOSS,
     bet_amount := 80, profit_loss := -80 },
   { confidence := Confidence.HIGH, result := BetResult.WIN,
     bet_amount := 20, profit_loss := 20 },
   { confidence := Confidence.HIGH, result := BetResult.LOSS,
     bet_amount := 50, profit_loss := -50 },
   { confidence := Confidence.HIGH, result := BetResult.WIN,
     bet_amount := 100, profit_loss := 100 }]

/-- Settled bets with results `[WIN, WIN, WIN, LOSS, WIN]` ordered
newest-first: the streak example of the specification. -/
def c6_example_bets : List SettledBet :=
  [{ confidence := Confidence.HIGH, result := BetResult.WIN,
     bet_amount := 10, profit_loss := 9 },
   { confidence := Confidence.HIGH, result := BetResult.WIN,
     bet_amount := 10, profit_loss := 9 },
   { confidence := Confidence.HIGH, result := BetResult.WIN,
     bet_amount := 10, profit_loss := 9 },
   { confidence := Confidence.HIGH, result := BetResult.LOSS,
     bet_amount := 10, profit_loss := -10 },
   { confidence := Confidence.HIGH, result := BetResult.WIN,
     bet_amount := 10, profit_loss := 9 }]

/-- Rounding zero to any number of decimal places gives zero. -/
theorem py_round_zero (n : ℕ) : py_round 0 n = 0 := by
  norm_num [py_round, roundHalfEven]

/-- C1: for every odds value, tier, bankroll and sizing parameters, the
decision policy of `calculate_bet_sizing` is: `adjustedKelly ≤ 0` or
`adjustedKelly < minBetPct` gives a zero bet and `should_bet = false`;
otherwise the final fraction is `min adjustedKelly maxBetPct` with
`should_bet = true` and the bet amount is the bankroll times that
fraction, rounded to cents.  In particular at odds +150, HIGH tier,
`kellyFraction = 1/4`, `maxBetPct = 1/20`, `minBetPct = 1/200`,
bankroll 1000: the full Kelly fraction is 2/15, the adjusted fraction is
1/30 = 0.0333…, the final fraction is 1/30, the bet amount is
33.33 and `should_bet = true`. -/
theorem c1_bet_sizing_policy :
    (∀ (o : ℤ) (conf : Confidence) (bankroll kf maxp minp : ℚ)
      (r : StakingRecommendation) (full : ℚ),
      calculate_bet_sizing o conf bankroll kf maxp minp = some r →
      calculate_kelly o (estimate_win_probability o conf) = some full →
      ((full * kf ≤ 0 → r.final_bet_pct = 0 ∧ r.bet_amount = 0 ∧ r.should_bet = false) ∧
       (0 < full * kf → full * kf < minp →
         r.final_bet_pct = 0 ∧ r.bet_amount = 0 ∧ r.should_bet = false) ∧
       (0 < full * kf → minp ≤ full * kf →
         bet_caps (full * kf) minp maxp = (min (full * kf) maxp, true) ∧
         r.should_bet = true ∧
         r.bet_amount = py_round (bankroll * min (full * kf) maxp) 2))) ∧
    calculate_kelly 150 (estimate_win_probability 150 Confidence.HIGH) = some (2 / 15) ∧
    (2 / 15 : ℚ) * (1 / 4) = 1 / 30 ∧
    bet_caps (1 / 30) (1 / 200) (1 / 20) = (1 / 30, true) ∧
    calculate_bet_sizing 150 Confidence.HIGH 1000 (1 / 4) (1 / 20) (1 / 200) =
      some ⟨2 / 5, 12 / 25, 1333 / 100, 333 / 100, 333 / 100, 3333 / 100, 667 / 100, true⟩ := by
  have hest : estimate_win_probability 150 Confidence.HIGH = 12 / 25 := by
    norm_num [estimate_win_probability, implied_probability, CONFIDENCE_EDGE, min_def]
  have hk150 : calculate_kelly 150 (estimate_win_probability 150 Confidence.HIGH) =
      some (2 / 15) := by
    rw [hest]; norm_num [calculate_kelly, decimal_odds_from_american]
  have hd150 : decimal_odds_from_american 150 = some (5 / 2) := by
    norm_num [decimal_odds_from_american]
  refine ⟨?_, hk150, by norm_num, ?_, ?_⟩
  · intro o conf bankroll kf maxp minp r full h hk
    obtain ⟨dec, hd⟩ : ∃ d, decimal_odds_from_american o = some d := by
      rcases hdec : decimal_odds_from_american o with _ | d
      · rw [calculate_kelly, hdec] at hk; simp at hk
      · exact ⟨d, rfl⟩
    rw [calculate_bet_sizing] at h
    rw [hk, hd] at h
    simp only [Option.some.injEq] at h
    subst h
    refine ⟨fun h0 => ?_, fun h0 h1 => ?_, fun h0 h1 => ?_⟩
    · have hc : bet_caps (full * kf) minp maxp = (0, false) := by
        rw [bet_caps, if_pos h0]
      simp [hc, py_round_zero]
    · have hc : bet_caps (full * kf) minp maxp = (0, false) := by
        rw [bet_caps, if_neg (by linarith), if_pos h1]
      simp [hc, py_round_zero]
    · have hc : bet_caps (full * kf) minp maxp = (min (full * kf) maxp, true) := by
        rw [bet_caps, if_neg (by linarith), if_neg (by linarith)]
      simp [hc]
  · rw [bet_caps, if_neg (by norm_num), if_neg (by norm_num)]
    norm_num [min_def]
  · rw [calculate_bet_sizing, hk150, hd150]
    norm_num [bet_caps, hest, py_round, roundHalfEven, implied_probability, min_def]

/-- Witness for `c1_bet_sizing_policy` at odds +150, HIGH tier,
bankroll 1000, quarter Kelly, caps 5% / 0.5%. -/
theorem c1_bet_sizing_policy_witness :
    ((0 : ℚ) < 2 / 15 * (1 / 4)) ∧ ((1 / 200 : ℚ) ≤ 2 / 15 * (1 / 4)) ∧
    (bet_caps (2 / 15 * (1 / 4)) (1 / 200) (1 / 20) =
        (min (2 / 15 * (1 / 4)) (1 / 20), true) ∧
      (StakingRecommendation.mk (2 / 5) (12 / 25) (1333 / 100) (333 / 100) (333 / 100)
          (3333 / 100) (667 / 100) true).should_bet = true ∧
      (StakingRecommendation.mk (2 / 5) (12 / 25) (1333 / 100) (333 / 100) (333 / 100)
          (3333 / 100) (667 / 100) true).bet_amount =
        py_round (1000 * min (2 / 15 * (1 / 4)) (1 / 20)) 2) := by
  refine ⟨by norm_num, by norm_num, ?_⟩
  exact (c1_bet_sizing_policy.1 150 Confidence.HIGH 1000 (1 / 4) (1 / 20) (1 / 200)
      _ (2 / 15) c1_bet_sizing_policy.2.2.2.2 c1_bet_sizing_policy.2.1).2.2
    (by norm_num) (by norm_num)

/-- C7 counterexample: at American odds exactly 0, `implied_probability`
does not fail at all — it silently returns the defaulted value 0 (the
repository defines no `InvalidOddsError` anywhere), contradicting the
claim that the odds-conversion operations reject a zero input with
`InvalidOddsError` before computation. -/
theorem c7_zero_odds_counterexample : implied_probability 0 = 0 := by
  norm_num [implied_probability]

/-- C7 amended: at American odds exactly 0, `implied_probability`
silently returns 0 rather than raising, while `decimal_odds_from_american`
and everything built on it (`calculate_kelly`, `calculate_bet_sizing`)
fail with an unhandled `ZeroDivisionError` (modelled as `none`); no
`InvalidOddsError` validation exists, so the input is not rejected before
computation. -/
theorem c7_zero_odds_amended :
    implied_probability 0 = 0 ∧
    decimal_odds_from_american 0 = none ∧
    calculate_kelly 0 (estimate_win_probability 0 Confidence.HIGH) = none ∧
    calculate_bet_sizing 0 Confidence.HIGH 1000 (1 / 4) (1 / 20) (1 / 200) = none := by
  have hd : decimal_odds_from_american 0 = none := by
    norm_num [decimal_odds_from_american]
  have hk : calculate_kelly 0 (estimate_win_probability 0 Confidence.HIGH) = none := by
    rw [calculate_kelly, hd]; rfl
  refine ⟨by norm_num [implied_probability], hd, hk, ?_⟩
  rw [calculate_bet_sizing, hk, hd]

/-- C8: `estimate_win_probability` equals the implied probability plus
the tier edge (HIGH 0.08, MEDIUM 0.04, LOW 0), capped at 0.95; the result
never exceeds 0.95 for any odds or tier, and at the extreme odds +10000
with HIGH tier it evaluates to 227/2525 ≈ 0.0899 ≤ 0.95. -/
theorem c8_estimated_probability_cap :
    (∀ (o : ℤ) (conf : Confidence),
      estimate_win_probability o conf =
        min (implied_probability o + CONFIDENCE_EDGE conf) (95 / 100) ∧
      estimate_win_probability o conf ≤ 95 / 100) ∧
    CONFIDENCE_EDGE Confidence.HIGH = 8 / 100 ∧
    CONFIDENCE_EDGE Confidence.MEDIUM = 4 / 100 ∧
    CONFIDENCE_EDGE Confidence.LOW = 0 ∧
    estimate_win_probability 10000 Confidence.HIGH = 227 / 2525 := by
  refine ⟨fun o conf => ⟨rfl, min_le_right _ _⟩, rfl, rfl, rfl, ?_⟩
  norm_num [estimate_win_probability, implied_probability, CONFIDENCE_EDGE, min_def]

/-- C9 counterexample: for the symmetric market `o = 110` the two
implied probabilities sum to exactly 1, refuting the claim that
`impliedProbability(-o) + impliedProbability(o)` is strictly greater
than 1 for every valid odds value. -/
theorem c9_vig_counterexample :
    implied_probability (-110) + implied_probability 110 = 1 ∧
    ¬ (1 < implied_probability (-110) + implied_probability 110) := by
  constructor <;> norm_num [implied_probability]

/-- C9 amended: for every nonzero American odds value `o`,
`implied_probability o` lies in the open interval (0,1), and the mirror
pair sums to exactly 1: `implied_probability (-o) + implied_probability o
= 1` (the two branches of the conversion are consistent).  A vig appears
only for asymmetric market pairs, e.g. quotes +150 / −170 have implied
probabilities summing to more than 1. -/
theorem c9_implied_probability_amended :
    (∀ o : ℤ, o ≠ 0 →
      (0 < implied_probability o ∧ implied_probability o < 1) ∧
      implied_probability (-o) + implied_probability o = 1) ∧
    1 < implied_probability 150 + implied_probability (-170) := by
  constructor
  · intro o ho
    rcases lt_or_gt_of_ne ho with hneg | hpos
    · have h1 : ¬ (0 < o) := by omega
      have h2 : 0 < -o := by omega
      have hoq : (o : ℚ) < 0 := by exact_mod_cast hneg
      have hcast : ((o.natAbs : ℚ)) = -(o : ℚ) := by
        rw [Int.cast_natAbs, abs_of_neg hneg, Int.cast_neg]
      have hden : (0 : ℚ) < -(o : ℚ) + 100 := by linarith
      simp only [implied_probability, if_pos h2, if_neg h1, hcast, Int.cast_neg]
      refine ⟨⟨div_pos (by linarith) hden, ?_⟩, ?_⟩
      · rw [div_lt_one hden]; linarith
      · field_simp
        try ring
    · have h1 : 0 < o := hpos
      have h2 : ¬ (0 < -o) := by omega
      have hoq : (0 : ℚ) < (o : ℚ) := by exact_mod_cast hpos
      have hcast : (((-o).natAbs : ℚ)) = (o : ℚ) := by
        rw [Int.cast_natAbs, abs_neg, abs_of_pos h1]
      have hden : (0 : ℚ) < (o : ℚ) + 100 := by linarith
      simp only [implied_probability, if_pos h1, if_neg h2, hcast]
      refine ⟨⟨div_pos (by linarith) hden, ?_⟩, ?_⟩
      · rw [div_lt_one hden]; linarith
      · field_simp
        try ring
  · norm_num [implied_probability]

/-- Witness for `c9_implied_probability_amended` at `o = 110`:
implied(+110) = 10/21 lies in (0,1) and implied(−110) + implied(+110)
sums to exactly 1. -/
theorem c9_implied_probability_witness :
    (110 : ℤ) ≠ 0 ∧
    (0 < implied_probability 110 ∧ implied_probability 110 < 1) ∧
    implied_probability (-110) + implied_probability 110 = 1 :=
  ⟨by norm_num, c9_implied_probability_amended.1 110 (by norm_num)⟩

/-- C10: the staking recommendation is internally consistent: whenever
`should_bet` is false, the reported final percentage, bet amount and
expected value are all exactly 0; whenever `should_bet` is true, the
final bet fraction (the unrounded `bet_caps` output, whose
cent-rounded percentage form is the reported `final_bet_pct`) lies in
the interval `[minBetPct, maxBetPct]`, provided
`0 < minBetPct ≤ maxBetPct`. -/
theorem c10_recommendation_invariants :
    ∀ (o : ℤ) (conf : Confidence) (bankroll kf maxp minp : ℚ)
      (r : StakingRecommendation) (full : ℚ),
      0 < minp → minp ≤ maxp →
      calculate_bet_sizing o conf bankroll kf maxp minp = some r →
      calculate_kelly o (estimate_win_probability o conf) = some full →
      ((r.should_bet = false →
          r.final_bet_pct = 0 ∧ r.bet_amount = 0 ∧ r.expected_value = 0) ∧
       (r.should_bet = true →
          minp ≤ (bet_caps (full * kf) minp maxp).1 ∧
          (bet_caps (full * kf) minp maxp).1 ≤ maxp ∧
          r.final_bet_pct = py_round ((bet_caps (full * kf) minp maxp).1 * 100) 2)) := by
  intro o conf bankroll kf maxp minp r full hminp hminmax h hk
  obtain ⟨dec, hd⟩ : ∃ d, decimal_odds_from_american o = some d := by
    rcases hdec : decimal_odds_from_american o with _ | d
    · rw [calculate_kelly, hdec] at hk; simp at hk
    · exact ⟨d, rfl⟩
  rw [calculate_bet_sizing] at h
  rw [hk, hd] at h
  simp only [Option.some.injEq] at h
  subst h
  constructor
  · intro hsb
    have h0 : (bet_caps (full * kf) minp maxp).1 = 0 := by
      rw [bet_caps]
      rw [bet_caps] at hsb
      split_ifs at hsb ⊢ with hA hB
      · rfl
      · rfl
    simp [h0, py_round_zero]
  · intro hsb
    rw [bet_caps] at hsb
    split_ifs at hsb with hA hB
    have hge : minp ≤ full * kf := le_of_not_lt hB
    have hc : bet_caps (full * kf) minp maxp = (min (full * kf) maxp, true) := by
      rw [bet_caps, if_neg hA, if_neg hB]
    refine ⟨?_, ?_, ?_⟩
    · rw [hc]; exact le_min hge hminmax
    · rw [hc]; exact min_le_right _ _
    · simp [hc]

/-- Witness for `c10_recommendation_invariants` at odds +150, HIGH tier,
bankroll 1000, quarter Kelly, caps 5% / 0.5%: the recommendation says to
bet, and its final fraction 1/30 lies within the caps. -/
theorem c10_recommendation_invariants_witness :
    ((0 : ℚ) < 1 / 200) ∧ ((1 / 200 : ℚ) ≤ 1 / 20) ∧
    ((1 / 200 : ℚ) ≤ (bet_caps (2 / 15 * (1 / 4)) (1 / 200) (1 / 20)).1 ∧
     (bet_caps (2 / 15 * (1 / 4)) (1 / 200) (1 / 20)).1 ≤ 1 / 20 ∧
     (StakingRecommendation.mk (2 / 5) (12 / 25) (1333 / 100) (333 / 100) (333 / 100)
         (3333 / 100) (667 / 100) true).final_bet_pct =
       py_round ((bet_caps (2 / 15 * (1 / 4)) (1 / 200) (1 / 20)).1 * 100) 2) := by
  refine ⟨by norm_num, by norm_num, ?_⟩
  have hest : estimate_win_probability 150 Confidence.HIGH = 12 / 25 := by
    norm_num [estimate_win_probability, implied_probability, CONFIDENCE_EDGE, min_def]
  have hk150 : calculate_kelly 150 (estimate_win_probability 150 Confidence.HIGH) =
      some (2 / 15) := by
    rw [hest]; norm_num [calculate_kelly, decimal_odds_from_american]
  have hsz : calculate_bet_sizing 150 Confidence.HIGH 1000 (1 / 4) (1 / 20) (1 / 200) =
      some ⟨2 / 5, 12 / 25, 1333 / 100, 333 / 100, 333 / 100, 3333 / 100, 667 / 100, true⟩ := by
    have hd150 : decimal_odds_from_american 150 = some (5 / 2) := by
      norm_num [decimal_odds_from_american]
    rw [calculate_bet_sizing, hk150, hd150]
    norm_num [bet_caps, hest, py_round, roundHalfEven, implied_probability, min_def]
  exact (c10_recommendation_invariants 150 Confidence.HIGH 1000 (1 / 4) (1 / 20) (1 / 200)
      _ (2 / 15) (by norm_num) (by norm_num) hsz hk150).2 rfl

/-- C3: risk classification evaluates CRISIS first (drawdown ≥ 0.20),
then CAUTIOUS (drawdown ≥ 0.10 or streak ≤ −3), then AGGRESSIVE
(streak ≥ 5 and calibration ≥ 0.9 and win rate over the last 10 ≥ 0.60),
with NORMAL as the fallback; any input meeting both the CRISIS and
AGGRESSIVE conditions classifies as CRISIS. -/
theorem c3_risk_precedence :
    ∀ (m : PerformanceMetrics) (c : CalibrationMetrics),
      (1 / 5 ≤ m.drawdown_pct → get_risk_assessment m c = RiskLevel.CRISIS) ∧
      (m.drawdown_pct < 1 / 5 → (1 / 10 ≤ m.drawdown_pct ∨ m.current_streak ≤ -3) →
        get_risk_assessment m c = RiskLevel.CAUTIOUS) ∧
      (m.drawdown_pct < 1 / 10 → -3 < m.current_streak →
        5 ≤ m.current_streak → 9 / 10 ≤ c.overall_calibration → 3 / 5 ≤ m.win_rate_l10 →
        get_risk_assessment m c = RiskLevel.AGGRESSIVE) ∧
      (m.drawdown_pct < 1 / 10 → -3 < m.current_streak →
        ¬ (5 ≤ m.current_streak ∧ 9 / 10 ≤ c.overall_calibration ∧
            3 / 5 ≤ m.win_rate_l10) →
        get_risk_assessment m c = RiskLevel.NORMAL) ∧
      (1 / 5 ≤ m.drawdown_pct ∧ 5 ≤ m.current_streak ∧
          9 / 10 ≤ c.overall_calibration ∧ 3 / 5 ≤ m.win_rate_l10 →
        get_risk_assessment m c = RiskLevel.CRISIS) := by
  intro m c
  simp only [get_risk_assessment, DRAWDOWN_CRISIS, DRAWDOWN_CAUTION,
    STREAK_LOSS_THRESHOLD, STREAK_WIN_THRESHOLD]
  refine ⟨fun h => ?_, fun h1 h2 => ?_, fun h1 h2 h3 h4 h5 => ?_,
    fun h1 h2 h3 => ?_, fun h => ?_⟩
  · rw [if_pos h]
  · rcases h2 with h2 | h2
    · rw [if_neg (by linarith), if_pos h2]
    · by_cases hdd : (1 : ℚ) / 10 ≤ m.drawdown_pct
      · rw [if_neg (by linarith), if_pos hdd]
      · rw [if_neg (by linarith), if_neg hdd, if_pos h2]
  · rw [if_neg (by linarith), if_neg (by linarith), if_neg (by omega),
      if_pos ⟨h3, h4, h5⟩]
  · rw [if_neg (by linarith), if_neg (by linarith), if_neg (by omega), if_neg h3]
  · rw [if_pos h.1]

/-- Witness for `c3_risk_precedence`: metrics meeting the CRISIS
threshold (drawdown 0.25) and simultaneously the AGGRESSIVE conditions
(streak +6, calibration 0.95, last-10 win rate 0.65) classify as
CRISIS. -/
theorem c3_risk_precedence_witness :
    ((1 : ℚ) / 5 ≤ 1 / 4 ∧ (5 : ℤ) ≤ 6 ∧ (9 : ℚ) / 10 ≤ 19 / 20 ∧
      (3 : ℚ) / 5 ≤ 13 / 20) ∧
    get_risk_assessment
      { drawdown_pct := 1 / 4, current_streak := 6, win_rate_l10 := 13 / 20 }
      { overall_calibration := 19 / 20 } = RiskLevel.CRISIS := by
  refine ⟨by norm_num, ?_⟩
  exact (c3_risk_precedence
      { drawdown_pct := 1 / 4, current_streak := 6, win_rate_l10 := 13 / 20 }
      { overall_calibration := 19 / 20 }).2.2.2.2 (by norm_num)

/-- C2 counterexample: with the positive base Kelly fraction 0.02 and
fresh default metrics (risk level NORMAL, neutral calibration), the
dynamic Kelly output is the absolute floor 0.05, which exceeds 125% of
the base fraction (0.025) and differs from base × risk multiplier
(0.02): the claimed upper bound and the claimed product value both fail
when the floor dominates. -/
theorem c2_dynamic_kelly_counterexample :
    (0 : ℚ) < 1 / 50 ∧
    calculate_dynamic_kelly (1 / 50) {} {} = 1 / 20 ∧
    ¬ (calculate_dynamic_kelly (1 / 50) {} {} ≤ 1 / 50 * (5 / 4)) ∧
    calculate_dynamic_kelly (1 / 50) {} {} ≠
      1 / 50 * RISK_MULTIPLIERS (get_risk_assessment {} {}) := by
  have hrisk : get_risk_assessment {} {} = RiskLevel.NORMAL := by
    rw [get_risk_assessment]
    norm_num [DRAWDOWN_CRISIS, DRAWDOWN_CAUTION,
      STREAK_LOSS_THRESHOLD, STREAK_WIN_THRESHOLD]
  have hdk : calculate_dynamic_kelly (1 / 50) {} {} = 1 / 20 := by
    rw [calculate_dynamic_kelly, hrisk]
    norm_num [RISK_MULTIPLIERS, min_def, max_def]
  refine ⟨by norm_num, hdk, by rw [hdk]; norm_num, ?_⟩
  rw [hdk, hrisk]
  norm_num [RISK_MULTIPLIERS]

/-- C2 amended: `calculate_dynamic_kelly` returns the clamp
`max(0.05, min(product, base × 1.25))` of the pre-clamp product
(base × risk multiplier, times the overall calibration when it is below
0.8 on at least 10 HIGH+MEDIUM samples); the result is never below the
absolute floor 0.05, and it is bounded by 125% of the base fraction
whenever `base ≥ 0.04` (i.e. whenever the floor does not exceed that
ceiling; for smaller bases the floor wins and the 125% bound fails). -/
theorem c2_dynamic_kelly_amended :
    ∀ (base : ℚ) (m : PerformanceMetrics) (c : CalibrationMetrics),
      calculate_dynamic_kelly base m c =
        max (1 / 20) (min (dyn_kelly_product base m c) (base * (5 / 4))) ∧
      1 / 20 ≤ calculate_dynamic_kelly base m c ∧
      (1 / 25 ≤ base → calculate_dynamic_kelly base m c ≤ base * (5 / 4)) := by
  intro base m c
  refine ⟨rfl, le_max_left _ _, fun hb => ?_⟩
  exact max_le (by linarith) (min_le_right _ _)

/-- Witness for `c2_dynamic_kelly_amended` at base fraction 1/4 with
default metrics and calibration. -/
theorem c2_dynamic_kelly_witness :
    (1 : ℚ) / 25 ≤ 1 / 4 ∧
    calculate_dynamic_kelly (1 / 4) {} {} ≤ 1 / 4 * (5 / 4) :=
  ⟨by norm_num, (c2_dynamic_kelly_amended (1 / 4) {} {}).2.2 (by norm_num)⟩

/-- C4: per confidence tier, the calibration ratio is
`min(observed/expected, 1.5)` once the tier has at least 5 settled
samples and stays at the neutral 1.0 below that threshold, with expected
win rates HIGH 0.70, MEDIUM 0.55, LOW 0.35; the overall calibration is
the sample-weighted average of the HIGH and MEDIUM ratios (LOW
excluded), defaulting to 1.0 when there are no HIGH or MEDIUM picks. -/
theorem c4_calibration :
    ∀ results : List SettledBet,
      (get_confidence_calibration results).expected_high = 7 / 10 ∧
      (get_confidence_calibration results).expected_medium = 11 / 20 ∧
      (get_confidence_calibration results).expected_low = 7 / 20 ∧
      (get_confidence_calibration results).count_high =
        (tier_stats results Confidence.HIGH).1 ∧
      (get_confidence_calibration results).count_medium =
        (tier_stats results Confidence.MEDIUM).1 ∧
      ((tier_stats results Confidence.HIGH).1 < 5 →
        (get_confidence_calibration results).calibration_high = 1) ∧
      (5 ≤ (tier_stats results Confidence.HIGH).1 →
        (get_confidence_calibration results).calibration_high =
          min ((((tier_stats results Confidence.HIGH).2 : ℚ) /
              (tier_stats results Confidence.HIGH).1) / (7 / 10)) (3 / 2)) ∧
      ((tier_stats results Confidence.MEDIUM).1 < 5 →
        (get_confidence_calibration results).calibration_medium = 1) ∧
      (5 ≤ (tier_stats results Confidence.MEDIUM).1 →
        (get_confidence_calibration results).calibration_medium =
          min ((((tier_stats results Confidence.MEDIUM).2 : ℚ) /
              (tier_stats results Confidence.MEDIUM).1) / (11 / 20)) (3 / 2)) ∧
      ((tier_stats results Confidence.LOW).1 < 5 →
        (get_confidence_calibration results).calibration_low = 1) ∧
      (5 ≤ (tier_stats results Confidence.LOW).1 →
        (get_confidence_calibration results).calibration_low =
          min ((((tier_stats results Confidence.LOW).2 : ℚ) /
              (tier_stats results Confidence.LOW).1) / (7 / 20)) (3 / 2)) ∧
      ((get_confidence_calibration results).count_high +
          (get_confidence_calibration results).count_medium = 0 →
        (get_confidence_calibration results).overall_calibration = 1) ∧
      (0 < (get_confidence_calibration results).count_high +
          (get_confidence_calibration results).count_medium →
        (get_confidence_calibration results).overall_calibration =
          ((get_confidence_calibration results).calibration_high *
              (get_confidence_calibration results).count_high +
            (get_confidence_calibration results).calibration_medium *
              (get_confidence_calibration results).count_medium) /
            (((get_confidence_calibration results).count_high : ℚ) +
              (get_confidence_calibration results).count_medium)) := by
  intro results
  by_cases hE : results.isEmpty = true
  · have hnil : results = [] := List.isEmpty_iff.mp hE
    subst hnil
    simp [get_confidence_calibration, tier_stats]
  · refine ⟨?_, ?_, ?_, ?_, ?_, ?_, ?_, ?_, ?_, ?_, ?_, ?_, ?_⟩
    · simp [get_confidence_calibration, hE]
    · simp [get_confidence_calibration, hE]
    · simp [get_confidence_calibration, hE]
    · simp [get_confidence_calibration, hE, tier_stats]
    · simp [get_confidence_calibration, hE, tier_stats]
    · intro h
      simp only [get_confidence_calibration, hE, Bool.false_eq_true, if_false, ite_false]
      rw [if_neg (by omega)]
    · intro h
      simp only [get_confidence_calibration, hE, Bool.false_eq_true, if_false, ite_false]
      rw [if_pos h]
    · intro h
      simp only [get_confidence_calibration, hE, Bool.false_eq_true, if_false, ite_false]
      rw [if_neg (by omega)]
    · intro h
      simp only [get_confidence_calibration, hE, Bool.false_eq_true, if_false, ite_false]
      rw [if_pos h]
    · intro h
      simp only [get_confidence_calibration, hE, Bool.false_eq_true, if_false, ite_false]
      rw [if_neg (by omega)]
    · intro h
      simp only [get_confidence_calibration, hE, Bool.false_eq_true, if_false, ite_false]
      rw [if_pos h]
    · intro h
      simp only [get_confidence_calibration, hE, Bool.false_eq_true, if_false,
        ite_false] at h ⊢
      rw [if_neg (by omega)]
    · intro h
      simp only [get_confidence_calibration, hE, Bool.false_eq_true, if_false,
        ite_false] at h ⊢
      rw [if_pos (by omega)]

/-- Witness for `c4_calibration`: a single HIGH-tier winning bet (1 win
out of 1) has a tier count below 5, so its calibration ratio is the
neutral 1.0, not 1/0.70 ≈ 1.43. -/
theorem c4_calibration_witness :
    (tier_stats c4_example_bets Confidence.HIGH).1 < 5 ∧
    (tier_stats c4_example_bets Confidence.HIGH).2 = 1 ∧
    (get_confidence_calibration c4_example_bets).calibration_high = 1 := by
  refine ⟨by decide, by decide, ?_⟩
  exact (c4_calibration c4_example_bets).2.2.2.2.2.1 (by decide)

/-- Folding addition over a list equals the starting value plus the sum. -/
theorem foldl_add_eq (l : List ℚ) : ∀ r : ℚ, l.foldl (· + ·) r = r + l.sum := by
  induction l with
  | nil => intro r; simp
  | cons a t ih =>
    intro r
    rw [List.foldl_cons, ih (r + a), List.sum_cons]
    ring

/-- The running-maximum component of the bankroll walk equals the
maximum over the list of partial sums. -/
theorem walk_peak_aux (l : List ℚ) : ∀ r p : ℚ,
    (l.foldl (fun rp x => (rp.1 + x, max rp.2 (rp.1 + x))) (r, p)).2 =
      ((l.scanl (· + ·) r).tail).foldl max p := by
  induction l with
  | nil => intro r p; simp
  | cons a t ih =>
    intro r p
    rw [List.foldl_cons, List.scanl_cons]
    simp only [List.tail_cons]
    rw [ih (r + a) (max p (r + a))]
    cases t with
    | nil => simp [List.scanl_nil]
    | cons c t' =>
      rw [List.scanl_cons]
      rfl

/-- The peak of the `walk_step` fold over settled bets is the maximum
over the scan of partial sums of profit/loss. -/
theorem walk_fold_eq (l : List SettledBet) (r p : ℚ) :
    (l.foldl walk_step (r, p)).2 =
      (((l.map (fun b => b.profit_loss)).scanl (· + ·) r).tail).foldl max p := by
  rw [← walk_peak_aux, List.foldl_map]
  rfl

/-- Folding `max` over a scan starting at the seed may equivalently skip
the head (which is the seed itself). -/
theorem scanl_foldl_max_head (l : List ℚ) (init : ℚ) :
    (l.scanl (· + ·) init).foldl max init =
      ((l.scanl (· + ·) init).tail).foldl max init := by
  cases l with
  | nil => simp
  | cons a t => rw [List.scanl_cons]; simp [max_self]

/-- C5: the current bankroll equals the final value of the oldest-to-
newest walk that starts at the initial bankroll and adds each bet's
profit/loss; the peak bankroll is the maximum value seen at any point of
that walk including the initial value; and the drawdown is
`(peak − current)/peak` when the peak is positive and 0 otherwise.  For
the walk `[+100, −50, +20, −80]` from 1000, the peak is 1100, the
current bankroll 990 and the drawdown 1/10. -/
theorem c5_bankroll_walk :
    (∀ (results : List SettledBet) (initial : ℚ),
      (get_performance_metrics results initial).current_bankroll =
        (results.reverse.map (fun b => b.profit_loss)).foldl (· + ·) initial ∧
      (get_performance_metrics results initial).peak_bankroll =
        ((results.reverse.map (fun b => b.profit_loss)).scanl (· + ·) initial).foldl
          max initial ∧
      (get_performance_metrics results initial).drawdown_pct =
        (if 0 < (get_performance_metrics results initial).peak_bankroll then
          ((get_performance_metrics results initial).peak_bankroll -
              (get_performance_metrics results initial).current_bankroll) /
            (get_performance_metrics results initial).peak_bankroll
        else 0)) ∧
    (get_performance_metrics c5_example_bets 1000).peak_bankroll = 1100 ∧
    (get_performance_metrics c5_example_bets 1000).current_bankroll = 990 ∧
    (get_performance_metrics c5_example_bets 1000).drawdown_pct = 1 / 10 := by
  constructor
  · intro results initial
    cases results with
    | nil =>
      refine ⟨?_, ?_, ?_⟩ <;> simp [get_performance_metrics, max_self]
    | cons b rest =>
      refine ⟨?_, ?_, ?_⟩
      · show initial + ((b :: rest).map (fun r => r.profit_loss)).sum = _
        rw [foldl_add_eq, List.map_reverse, List.sum_reverse]
      · show ((b :: rest).reverse.foldl walk_step (initial, initial)).2 = _
        rw [walk_fold_eq, scanl_foldl_max_head]
      · rfl
  · refine ⟨?_, ?_, ?_⟩ <;>
      norm_num [get_performance_metrics, c5_example_bets, walk_step,
        streak_count, max_def]

/-- The streak loop counts the prefix of bets sharing the result `r0`
when that result is WIN or LOSS. -/
theorem streak_count_eq (r0 : BetResult)
    (hr : (r0 == BetResult.WIN || r0 == BetResult.LOSS) = true) :
    ∀ l : List SettledBet,
      streak_count r0 l = (l.takeWhile (fun x => x.result == r0)).length := by
  intro l
  induction l with
  | nil => rfl
  | cons b t ih =>
    simp only [streak_count, List.takeWhile_cons, hr, Bool.and_true]
    cases hb : b.result == r0 with
    | false => simp [hb]
    | true => simp [hb, ih]

/-- C6: for a nonempty newest-first list of settled bets, the current
streak is the signed length of the initial run of bets sharing the most
recent bet's result: positive for a WIN run, negative for a LOSS run,
and 0 when the most recent result is a PUSH (a PUSH neither extends a
win streak nor a loss streak, and a different result or a PUSH ends the
run since the counted prefix only contains the most recent result). -/
theorem c6_streak :
    ∀ (results : List SettledBet) (initial : ℚ) (b : SettledBet)
      (rest : List SettledBet),
      results = b :: rest →
      (get_performance_metrics results initial).current_streak =
        (match b.result with
         | BetResult.WIN =>
           ((results.takeWhile (fun x => x.result == BetResult.WIN)).length : ℤ)
         | BetResult.LOSS =>
           -((results.takeWhile (fun x => x.result == BetResult.LOSS)).length : ℤ)
         | BetResult.PUSH => 0) := by
  intro results initial b rest hres
  subst hres
  have hcs : (get_performance_metrics (b :: rest) initial).current_streak =
      (if b.result == BetResult.WIN
        then (streak_count b.result (b :: rest) : ℤ)
        else -(streak_count b.result (b :: rest) : ℤ)) := rfl
  rw [hcs]
  cases hb : b.result with
  | WIN => rw [streak_count_eq BetResult.WIN rfl]; simp
  | LOSS => rw [streak_count_eq BetResult.LOSS rfl]; simp
  | PUSH => simp [streak_count]

/-- Witness for `c6_streak`: the newest-first results
`[WIN, WIN, WIN, LOSS, WIN]` give a current streak of +3, stopping at
the LOSS. -/
theorem c6_streak_witness :
    c6_example_bets =
      ({ confidence := Confidence.HIGH, result := BetResult.WIN,
         bet_amount := 10, profit_loss := 9 } : SettledBet) :: c6_example_bets.tail ∧
    (get_performance_metrics c6_example_bets 1000).current_streak = 3 := by
  refine ⟨rfl, ?_⟩
  rw [c6_streak c6_example_bets 1000 _ c6_example_bets.tail rfl]
  decide

end NBAUnderdog
